import Mathlib

/-!
# Verification of the book/tag CRUD service

A shallow embedding of the business logic of the book-review service:
the SQLModel entities (`src/db/models.py`), the book service
(`src/books/service.py`), the tag service (`src/tags/service.py`) and the
error-to-response translation (`src/utils/errors.py`).

The database is modelled as explicit state (`DB`): the `books` and `tags`
tables, the `booktag` association table, a counter supplying fresh
identifiers (uuid4 defaults assigned at insert) and a clock supplying the
timestamp defaults.  Each service method becomes a pure function
`DB → ... → (Except Err α) × DB` returning the outcome together with the
database after the call; a raised exception or a failed commit leaves the
database component unchanged (the transaction rolls back).

A load-bearing detail of the source: the models declare their primary
keys as `uid` (`models.py` — the join table's foreign keys are
`books.uid` / `tags.uid`), but the services build their primary-key
queries with `Book.id` (books/service.py line 54) and `Tag.id`
(tags/service.py line 100), attributes no class in the model's MRO
defines.  Evaluating them raises `AttributeError` while the select
statement is being constructed, before any query runs — neither
SQLAlchemy nor SQLModel aliases the primary key to `id`.  The embedding
models class-attribute access explicitly (`getattrColumn` over the list
of declared attributes), so `get_book_or_404` and `get_tag_by_uid` fail
with `attributeError` on every input, and everything built on them
(attach, update, delete) propagates that failure.
-/

deriving instance DecidableEq for Except

namespace BookDemo

/-- The exceptions the service can raise: the domain exceptions of
`src/utils/errors.py` (`BookNotFound`, `TagNotFound`, `TagAlreadyExists`,
`TagDuplicatedName`), FastAPI's `HTTPException`, Python's
`AttributeError` (raised by evaluating the undeclared model attributes
`Book.id` / `Tag.id`; unhandled, it reaches the status-500 handler), and
the SQLAlchemy errors that reach the `SQLAlchemyError` handler:
`MultipleResultsFound` from `one_or_none` and `IntegrityError` from a
violated constraint. -/
inductive Err where
  | bookNotFound
  | tagNotFound
  | tagAlreadyExists
  | tagDuplicatedName
  | httpException (status : Nat)
  | attributeError
  | multipleResults
  | integrityError
deriving DecidableEq, Repr

/-- A calendar date, the value a parsed `published_date` would hold. -/
structure CalDate where
  year : Nat
  month : Nat
  day : Nat
deriving DecidableEq, Repr

/-- The runtime value of the `published_date` attribute.  Python is
dynamically typed: although `Book.published_date` is declared `date` in
`src/db/models.py`, a SQLModel `table=True` model performs no validation,
so the attribute holds whatever was assigned — a parsed date or a raw
string. -/
inductive PubDate where
  | val (d : CalDate)
  | raw (s : String)
deriving DecidableEq, Repr

/-- A row of the `tags` table (`Tag` in `src/db/models.py`): uuid primary
key named `uid` (default assigned at insert), unique `name`, `created_at`
default. -/
structure TagRow where
  uid : Nat
  name : String
  created_at : Nat
deriving DecidableEq, Repr

/-- A row of the `books` table (`Book` in `src/db/models.py`); the
primary key is named `uid`. -/
structure BookRow where
  uid : Nat
  title : String
  author : String
  publisher : String
  published_date : PubDate
  page_count : Int
  language_code : String
  created_at : Nat
  update_at : Nat
deriving DecidableEq, Repr

/-- An in-memory `Tag` ORM object as it appears in a relationship
collection: either an entity loaded from the table (its uuid assigned) or
a freshly constructed `Tag(name=...)` that has not been persisted yet
(its uuid unset until flush). -/
inductive TagEntity where
  | persisted (row : TagRow)
  | fresh (name : String)
deriving DecidableEq, Repr

/-- The `name` attribute of an in-memory tag object. -/
def TagEntity.name : TagEntity → String
  | .persisted r => r.name
  | .fresh n => n

/-- The database state: the three tables of `src/db/models.py`
(`books`, `tags`, `booktag` with composite primary key
`(book_id, tag_id)`), plus the generator of fresh uuids and the clock
used for the `created_at`/`update_at` column defaults. -/
structure DB where
  books : List BookRow
  tags : List TagRow
  bookTags : List (Nat × Nat)
  nextUid : Nat
  clock : Nat
deriving DecidableEq, Repr

/-- The attributes the `Book` model declares (src/db/models.py lines
31-48).  There is no `id`: the primary key is `uid`. -/
def bookColumns : List String :=
  ["uid", "title", "author", "publisher", "published_date", "page_count",
   "language_code", "created_at", "update_at", "tags"]

/-- The attributes the `Tag` model declares (src/db/models.py lines
13-27).  There is no `id`: the primary key is `uid`. -/
def tagColumns : List String :=
  ["uid", "name", "created_at", "books"]

/-- Class-level attribute access on a SQLModel table class, as used to
build a where-clause: the name resolves only when the model declares it;
otherwise Python raises `AttributeError` (no class in the MRO and no
metaclass fallback defines it, and neither SQLAlchemy nor SQLModel
aliases the primary key to `id`). -/
def getattrColumn (declared : List String) (attr : String) :
    Except Err String :=
  if declared.contains attr then .ok attr else .error .attributeError

/-- Query `select(Tag).where(Tag.name == n)` — `name` is a declared
attribute, so this query is really performed (by `add_tag` and by the
attach loop). -/
def tagsByName (db : DB) (n : String) : List TagRow :=
  db.tags.filter (fun t => t.name == n)

/-- SQLAlchemy `Result.one_or_none()`: `none` on zero rows, the row when
there is exactly one, and a `MultipleResultsFound` error otherwise. -/
def one_or_none {α : Type} (l : List α) : Except Err (Option α) :=
  match l with
  | [] => .ok none
  | [t] => .ok (some t)
  | _ :: _ :: _ => .error .multipleResults

/-- The tag collection the relationship loader populates for a book (the
`tags` relationship, `lazy="selectin"`): it joins the book's `booktag`
rows to the tag rows through the real `uid` primary-key columns named by
the link model's foreign keys (`books.uid`, `tags.uid`) — this path does
not touch the undeclared `id` attributes. -/
def loadedTagRows (db : DB) (bid : Nat) : List TagRow :=
  (db.bookTags.filter (fun p => p.1 == bid)).filterMap
    (fun p => (db.tags.filter (fun t => t.uid == p.2)).head?)

/-- A `Book` ORM object handed to a caller: the scalar row plus its
loaded `tags` relationship collection. -/
structure LoadedBook where
  row : BookRow
  tags : List TagRow
deriving DecidableEq, Repr

/-- Embedding of `BookService.get_book_or_404` (src/src/books/service.py
lines 37-62): the statement is
`select(Book).where(Book.id == book_id)` (with `selectinload` of the
tags when `with_tags`), and both branches of the ternary evaluate the
class attribute `Book.id` — which the model does not declare — so the
call raises `AttributeError` on every input before any query runs.  The
code after the statement (`result.first()`, raise `BookNotFound` when
`None`, return the book) is transcribed below as the intended
primary-key lookup, but it is unreachable. -/
def get_book_or_404 (db : DB) (book_id : Nat) (with_tags : Bool) :
    Except Err (Option LoadedBook) := do
  let _ := with_tags
  let _ ← getattrColumn bookColumns "id"
  match (db.books.filter (fun b => b.uid == book_id)).head? with
  | none => .error .bookNotFound
  | some b => .ok (some ⟨b, loadedTagRows db b.uid⟩)

/-- INSERT of a new `Tag(name=n)`: the uuid and `created_at` defaults are
assigned, and the `unique=True` constraint on `tags.name` rejects a
duplicate name with an `IntegrityError`. -/
def insertTagRow (db : DB) (n : String) : Except Err (TagRow × DB) :=
  if db.tags.any (fun t => t.name == n) then .error .integrityError
  else
    .ok (⟨db.nextUid, n, db.clock⟩,
      { db with tags := db.tags ++ [⟨db.nextUid, n, db.clock⟩],
                nextUid := db.nextUid + 1 })

/-- INSERT into the `booktag` association table: the composite primary
key `(book_id, tag_id)` rejects a duplicate pair with an
`IntegrityError`. -/
def insertBookTag (db : DB) (bid tid : Nat) : Except Err DB :=
  if db.bookTags.contains (bid, tid) then .error .integrityError
  else .ok { db with bookTags := db.bookTags ++ [(bid, tid)] }

/-- The single iteration body of the loop in
`TagService.add_tags_to_book` (src/src/tags/service.py lines 70-76):
select the tag by name (a declared attribute), `one_or_none()` it, and
construct a new unsaved `Tag(name=...)` when absent. -/
def resolve_tag (db : DB) (n : String) : Except Err TagEntity := do
  match (← one_or_none (tagsByName db n)) with
  | none => pure (.fresh n)
  | some row => pure (.persisted row)

/-- The whole loop of `TagService.add_tags_to_book` (lines 70-78):
resolve each name in order and `book.tags.append(tag)` it — no
membership check against the collection. -/
def attach_tags_loop (db : DB) (coll : List TagEntity) (names : List String) :
    Except Err (List TagEntity) :=
  match names with
  | [] => .ok coll
  | n :: rest => do
      let t ← resolve_tag db n
      attach_tags_loop db (coll ++ [t]) rest

/-- The flush performed by `session.commit()` in
`TagService.add_tags_to_book`: each entity appended to the book's tag
collection is persisted — a fresh tag is INSERTed (save-update cascade)
and then its association row is INSERTed; a loaded tag only gets the
association row. -/
def commitAppends (bid : Nat) (db : DB) (pend : List TagEntity) :
    Except Err DB :=
  match pend with
  | [] => .ok db
  | .persisted r :: rest => do
      let db1 ← insertBookTag db bid r.uid
      commitAppends bid db1 rest
  | .fresh n :: rest => do
      let (row, db1) ← insertTagRow db n
      let db2 ← insertBookTag db1 bid row.uid
      commitAppends bid db2 rest

/-- Embedding of `TagService.add_tags_to_book` (src/src/tags/service.py
lines 42-82): resolve the book via `get_book_or_404` (line 65) — which
raises `AttributeError` on every call — then the (unreached) dead
`if not book` check, append loop, `session.add(book)`, `commit()` and
`refresh(book)`.  An exception propagates with the database component
unchanged. -/
def add_tags_to_book (db : DB) (book_id : Nat) (tag_names : List String) :
    (Except Err LoadedBook) × DB :=
  match get_book_or_404 db book_id true with
  | .error e => (.error e, db)
  | .ok none => (.error .bookNotFound, db)
  | .ok (some book) =>
    match attach_tags_loop db (book.tags.map .persisted) tag_names with
    | .error e => (.error e, db)
    | .ok coll =>
      match commitAppends book.row.uid db (coll.drop book.tags.length) with
      | .error e => (.error e, db)
      | .ok db1 => (.ok ⟨book.row, loadedTagRows db1 book.row.uid⟩, db1)

/-- Embedding of `TagService.get_tag_by_uid` (src/src/tags/service.py
lines 84-104): the statement is `select(Tag).where(Tag.id == tag_id)`
(line 100), and `Tag.id` is not a declared attribute — the call raises
`AttributeError` on every input.  The transcribed remainder
(`result.first()`, the soft `Option` return) is unreachable. -/
def get_tag_by_uid (db : DB) (tag_id : Nat) : Except Err (Option TagRow) := do
  let _ ← getattrColumn tagColumns "id"
  pure ((db.tags.filter (fun t => t.uid == tag_id)).head?)

/-- Embedding of `TagService.add_tag` (src/src/tags/service.py lines
106-139): select by `Tag.name` (a declared attribute) and `.first()` it;
when a tag is found raise `TagAlreadyExists` (before any insert);
otherwise construct `Tag(name=...)`, add and commit. -/
def add_tag (db : DB) (name : String) : (Except Err TagRow) × DB :=
  match (tagsByName db name).head? with
  | some _ => (.error .tagAlreadyExists, db)
  | none =>
    match insertTagRow db name with
    | .error e => (.error e, db)
    | .ok (row, db1) => (.ok row, db1)

/-- Embedding of `TagService.update_tag` (src/src/tags/service.py lines
141-177): the lookup `get_tag_by_uid` raises `AttributeError` (there is
no try/except), so the `if not tag` branch — which would raise a bare
FastAPI `HTTPException(status_code=404)` — and the `setattr`/commit
remainder are never reached. -/
def update_tag (db : DB) (tag_uid : Nat) (new_name : String) :
    (Except Err TagRow) × DB :=
  match get_tag_by_uid db tag_uid with
  | .error e => (.error e, db)
  | .ok none => (.error (.httpException 404), db)
  | .ok (some t) =>
    let upd := fun (r : TagRow) =>
      if r.uid == t.uid then { r with name := new_name } else r
    (.ok { t with name := new_name }, { db with tags := db.tags.map upd })

/-- Embedding of `TagService.delete_tag` (src/src/tags/service.py lines
179-204): the lookup `get_tag_by_uid` raises `AttributeError`, so the
`TagNotFound` raise and the delete/commit remainder are never
reached. -/
def delete_tag (db : DB) (tag_id : Nat) : (Except Err Unit) × DB :=
  match get_tag_by_uid db tag_id with
  | .error e => (.error e, db)
  | .ok none => (.error .tagNotFound, db)
  | .ok (some t) =>
    (.ok (),
      { db with tags := db.tags.filter (fun r => !(r.uid == t.uid)),
                bookTags := db.bookTags.filter (fun p => !(p.2 == t.uid)) })

/-- The payload of `BookCreateModel`/`BookUpdateModel`
(src/src/books/schemas.py): six fields, with `published_date`
declared `str` — it arrives as a string. -/
structure BookCreateModel where
  title : String
  author : String
  publisher : String
  published_date : String
  page_count : Int
  language_code : String
deriving DecidableEq, Repr

/-- Embedding of `BookService.create_book` (src/src/books/service.py
lines 65-87): `Book(**book_data.model_dump())`, add, commit.  No parsing
of `published_date` happens anywhere in the body, and a `table=True`
SQLModel performs no validation, so the raw string is stored as-is; the
uuid and the two timestamp defaults are assigned at insert, and the
`unique=True` constraint on `books.title` rejects a duplicate title.
This path never touches the undeclared `id` attribute. -/
def create_book (db : DB) (m : BookCreateModel) : (Except Err BookRow) × DB :=
  let row : BookRow :=
    ⟨db.nextUid, m.title, m.author, m.publisher, .raw m.published_date,
     m.page_count, m.language_code, db.clock, db.clock⟩
  if db.books.any (fun b => b.title == m.title) then (.error .integrityError, db)
  else (.ok row, { db with books := db.books ++ [row], nextUid := db.nextUid + 1 })

/-- Embedding of `BookService.update_book` (src/src/books/service.py
lines 89-127): `get_book_or_404` raises `AttributeError` on every call,
so the dead `if book_to_update is None: return None` branch and the
`setattr` loop over the payload are never reached; the transcription of
those lines follows the source. -/
def update_book (db : DB) (book_id : Nat) (m : BookCreateModel) :
    (Except Err (Option BookRow)) × DB :=
  match get_book_or_404 db book_id false with
  | .error e => (.error e, db)
  | .ok none => (.ok none, db)
  | .ok (some lb) =>
    let b1 : BookRow :=
      { lb.row with
        title := m.title
        author := m.author
        publisher := m.publisher
        published_date := .raw m.published_date
        page_count := m.page_count
        language_code := m.language_code }
    let upd := fun (x : BookRow) => if x.uid == lb.row.uid then b1 else x
    if db.books.any (fun x => x.title == m.title && !(x.uid == lb.row.uid))
    then (.error .integrityError, db)
    else (.ok (some b1), { db with books := db.books.map upd })

/-- Embedding of `BookService.delete_book` (src/src/books/service.py
lines 130-160): `get_book_or_404` (line 150, with `with_tags=True`)
raises `AttributeError` on every call, so the dead None-check and the
delete/commit are never reached; the transcription follows the
source. -/
def delete_book (db : DB) (book_id : Nat) : (Except Err (Option Unit)) × DB :=
  match get_book_or_404 db book_id true with
  | .error e => (.error e, db)
  | .ok none => (.ok none, db)
  | .ok (some lb) =>
    (.ok (some ()),
      { db with books := db.books.filter (fun b => !(b.uid == lb.row.uid)),
                bookTags := db.bookTags.filter (fun p => !(p.1 == lb.row.uid)) })

/-- The body an error handler produces: HTTP status plus the JSON fields
used by this app — `message`/`error_code` for the handlers registered in
`register_all_errors`, `detail` for FastAPI's built-in `HTTPException`
handler. -/
structure Response where
  status : Nat
  message : Option String
  error_code : Option String
  detail : Option String
deriving DecidableEq, Repr

/-- The exception-to-response translation installed by
`register_all_errors` (src/src/utils/errors.py lines 47-111), together
with the framework defaults for the exceptions it does not register:
a bare `HTTPException` gets FastAPI's default `{"detail": <phrase>}`
body; an uncaught `AttributeError` reaches the status-500 handler
(errors.py lines 60-69) and gets the generic `server_error` body; any
`SQLAlchemyError` (`MultipleResultsFound`, `IntegrityError`) is caught
by the catch-all handler returning the same generic 500 body. -/
def handle_error : Err → Response
  | .bookNotFound =>
      ⟨404, some "Book Not Found", some "book_not_found", none⟩
  | .tagNotFound =>
      ⟨404, some "Tag Not Found", some "tag_not_found", none⟩
  | .tagAlreadyExists =>
      ⟨403, some "Tag Already exists", some "tag_exists", none⟩
  | .tagDuplicatedName =>
      ⟨409, some "Exists more than 1 tag with the same name",
        some "tag_duplicated_name", none⟩
  | .httpException s =>
      ⟨s, none, none, some (if s == 404 then "Not Found" else "Error")⟩
  | .attributeError =>
      ⟨500, some "Oops! Something went wrong", some "server_error", none⟩
  | .multipleResults =>
      ⟨500, some "Oops! Something went wrong", some "server_error", none⟩
  | .integrityError =>
      ⟨500, some "Oops! Something went wrong", some "server_error", none⟩

/-- Splitting a character list at every dash, the separator of the
spec's fixed date format. -/
def splitDash (l : List Char) : List (List Char) :=
  match l with
  | [] => [[]]
  | c :: rest =>
    if c = '-' then [] :: splitDash rest
    else
      match splitDash rest with
      | [] => [[c]]
      | p :: ps => (c :: p) :: ps

/-- The numeric value of a digit string. -/
def digitsToNat (l : List Char) : Nat :=
  l.foldl (fun acc c => acc * 10 + (c.toNat - 48)) 0

/-- Modelled from the spec: the fixed-format `YYYY-MM-DD` parse that
§4.1 requires for the published-date string.  No such parse exists
anywhere under `src/` — the service stores the string unparsed — so this
definition follows the spec's words (`datetime.strptime` with format
`%Y-%m-%d`: dash-separated numeric year, month 1-12, day valid for the
month). -/
def specParsePublishedDate (s : String) : Option CalDate :=
  match splitDash s.data with
  | [y, m, d] =>
    if y.length = 0 ∨ y.length > 4 ∨ ¬ y.all Char.isDigit then none
    else if m.length = 0 ∨ m.length > 2 ∨ ¬ m.all Char.isDigit then none
    else if d.length = 0 ∨ d.length > 2 ∨ ¬ d.all Char.isDigit then none
    else
      let yn := digitsToNat y
      let mn := digitsToNat m
      let dn := digitsToNat d
      let leap := yn % 4 = 0 ∧ (yn % 100 ≠ 0 ∨ yn % 400 = 0)
      let maxDay :=
        if mn = 2 then (if leap then 29 else 28)
        else if mn = 4 ∨ mn = 6 ∨ mn = 9 ∨ mn = 11 then 30
        else 31
      if 1 ≤ mn ∧ mn ≤ 12 ∧ 1 ≤ dn ∧ dn ≤ maxDay then some ⟨yn, mn, dn⟩
      else none
  | _ => none

/-- A concrete database used to instantiate the hypothesis-bearing
theorems: one book (uid 1), one tag `Fiction` (uid 2). -/
def dbW : DB :=
  ⟨[⟨1, "T", "A", "P", .raw "2024-01-15", 100, "en", 5, 5⟩],
   [⟨2, "Fiction", 5⟩], [], 3, 9⟩

/-- A concrete database with two tags and the `Fiction` tag (uid 2)
already linked to book 1. -/
def dbW' : DB :=
  ⟨[⟨1, "T", "A", "P", .raw "2024-01-15", 100, "en", 5, 5⟩],
   [⟨2, "Fiction", 5⟩, ⟨3, "Adventure", 9⟩], [(1, 2), (1, 3)], 4, 9⟩

theorem except_bind_ok {ε α β : Type} (a : α) (f : α → Except ε β) :
    (Except.ok a >>= f) = f a := rfl

theorem except_bind_error {ε α β : Type} (e : ε) (f : α → Except ε β) :
    ((Except.error e : Except ε α) >>= f) = .error e := rfl

theorem except_pure {ε α : Type} (a : α) :
    (pure a : Except ε α) = .ok a := rfl

/-- The `Book` model declares no `id` attribute: evaluating `Book.id`
raises `AttributeError`. -/
theorem book_id_attribute_missing :
    getattrColumn bookColumns "id" = .error .attributeError := by decide

/-- The `Tag` model declares no `id` attribute: evaluating `Tag.id`
raises `AttributeError`. -/
theorem tag_id_attribute_missing :
    getattrColumn tagColumns "id" = .error .attributeError := by decide

/-- `get_book_or_404` raises `AttributeError` on every input: the where
clause `Book.id == book_id` is built before the query runs, and `Book.id`
does not exist. -/
theorem get_book_or_404_raises (db : DB) (book_id : Nat) (with_tags : Bool) :
    get_book_or_404 db book_id with_tags = .error .attributeError := by
  unfold get_book_or_404
  rw [book_id_attribute_missing]
  rfl

/-- `get_tag_by_uid` raises `AttributeError` on every input: the where
clause `Tag.id == tag_id` is built before the query runs, and `Tag.id`
does not exist. -/
theorem get_tag_by_uid_raises (db : DB) (tag_id : Nat) :
    get_tag_by_uid db tag_id = .error .attributeError := by
  unfold get_tag_by_uid
  rw [tag_id_attribute_missing]
  rfl

theorem tagsByName_eq_nil_iff {db : DB} {n : String} :
    tagsByName db n = [] ↔ db.tags.any (fun t => t.name == n) = false := by
  simp [tagsByName, List.filter_eq_nil_iff, List.any_eq_false]

theorem resolve_tag_of_single {db : DB} {n : String} {t : TagRow}
    (h : tagsByName db n = [t]) : resolve_tag db n = .ok (.persisted t) := by
  simp [resolve_tag, h, one_or_none, except_bind_ok, except_pure]

/-- C1: the claim's per-name processing (reuse an existing tag, create
an absent one) is unreachable in the code: for every book id and every
ordered list of tag names, `add_tags_to_book` raises `AttributeError`
while `get_book_or_404` builds its where clause from the undeclared
`Book.id`, before the per-name loop runs, and returns with the state
unchanged. -/
theorem add_tags_never_processes_names
    (db : DB) (bid : Nat) (names : List String) :
    add_tags_to_book db bid names = (.error .attributeError, db) := by
  simp [add_tags_to_book, get_book_or_404_raises]

/-- C2: attaching `["Fiction", "Adventure"]` never returns a book: the
operation raises `AttributeError` at the book lookup (`Book.id` is not
declared) on every state and book id, so no tag set is ever produced. -/
theorem attach_fiction_adventure_crashes (db : DB) (bid : Nat) :
    add_tags_to_book db bid ["Fiction", "Adventure"] =
      (.error .attributeError, db) := by
  simp [add_tags_to_book, get_book_or_404_raises]

/-- C3: creating a tag first performs the pre-check lookup by name and
signals `TagAlreadyExists` when a row with that name is found, leaving
the tag table (and the whole database) unchanged; only when the check
passes is the insert performed. -/
theorem add_tag_check_then_insert (db : DB) (n : String) :
    ((∃ t ∈ db.tags, t.name = n) →
      add_tag db n = (.error .tagAlreadyExists, db)) ∧
    ((¬ ∃ t ∈ db.tags, t.name = n) →
      add_tag db n =
        (.ok ⟨db.nextUid, n, db.clock⟩,
         { db with tags := db.tags ++ [⟨db.nextUid, n, db.clock⟩],
                   nextUid := db.nextUid + 1 })) := by
  constructor
  · rintro ⟨t, ht, htn⟩
    have hmem : t ∈ tagsByName db n := by
      simp [tagsByName, List.mem_filter, ht, htn]
    unfold add_tag
    cases hl : (tagsByName db n).head? with
    | none =>
      rw [List.head?_eq_none_iff] at hl
      rw [hl] at hmem
      simp at hmem
    | some s => simp
  · intro hna
    have hnil : tagsByName db n = [] := by
      rw [tagsByName, List.filter_eq_nil_iff]
      intro t ht
      simp only [beq_iff_eq]
      exact fun htn => hna ⟨t, ht, htn⟩
    have hany : db.tags.any (fun t => t.name == n) = false :=
      tagsByName_eq_nil_iff.mp hnil
    unfold add_tag
    rw [hnil]
    simp only [List.head?_nil]
    unfold insertTagRow
    rw [hany]
    simp

theorem add_tag_check_then_insert_witness :
    add_tag dbW "Fiction" = (.error .tagAlreadyExists, dbW) ∧
    add_tag dbW "New" =
      (.ok ⟨3, "New", 9⟩,
       { dbW with tags := dbW.tags ++ [⟨3, "New", 9⟩], nextUid := 4 }) := by
  refine ⟨(add_tag_check_then_insert dbW "Fiction").1
    ⟨⟨2, "Fiction", 5⟩, by decide, rfl⟩, ?_⟩
  exact (add_tag_check_then_insert dbW "New").2 (by decide)

/-- C4: the append loop of `add_tags_to_book` (lines 70-78) performs no
membership check — resolving an existing tag appends it to any
collection, including one that already contains it — but the loop is
unreachable: the operation raises `AttributeError` at the book lookup on
every call, so no second association row is ever attempted. -/
theorem reattach_appends_without_dedup
    (db : DB) (bid : Nat) (coll : List TagEntity) (n : String) (t : TagRow)
    (ht : tagsByName db n = [t]) :
    attach_tags_loop db coll [n] = .ok (coll ++ [TagEntity.persisted t]) ∧
    add_tags_to_book db bid [n] = (.error .attributeError, db) := by
  constructor
  · simp [attach_tags_loop, resolve_tag_of_single ht, except_bind_ok]
  · simp [add_tags_to_book, get_book_or_404_raises]

theorem reattach_appends_without_dedup_witness :
    attach_tags_loop dbW' [TagEntity.persisted ⟨2, "Fiction", 5⟩]
      ["Fiction"] =
      .ok [TagEntity.persisted ⟨2, "Fiction", 5⟩,
           TagEntity.persisted ⟨2, "Fiction", 5⟩] ∧
    add_tags_to_book dbW' 1 ["Fiction"] = (.error .attributeError, dbW') := by
  exact reattach_appends_without_dedup dbW' 1
    [TagEntity.persisted ⟨2, "Fiction", 5⟩] "Fiction" ⟨2, "Fiction", 5⟩
    (by decide)

/-- C5: `create_book` stores the published-date string without parsing
it — for an input that does not parse in the spec's `YYYY-MM-DD` format
the operation signals no validation error and stores the raw string, and
even a well-formed date string is stored raw rather than as a calendar
value. -/
theorem create_book_stores_unparsed_date_string :
    specParsePublishedDate "2024-13-99" = none ∧
    specParsePublishedDate "2024-01-15" = some ⟨2024, 1, 15⟩ ∧
    (create_book ⟨[], [], [], 0, 0⟩ ⟨"T", "A", "P", "2024-13-99", 100, "en"⟩).1 =
      .ok ⟨0, "T", "A", "P", .raw "2024-13-99", 100, "en", 0, 0⟩ ∧
    (create_book ⟨[], [], [], 0, 0⟩ ⟨"T", "A", "P", "2024-01-15", 100, "en"⟩).1 =
      .ok ⟨0, "T", "A", "P", .raw "2024-01-15", 100, "en", 0, 0⟩ := by
  refine ⟨by decide, by decide, by decide, by decide⟩

/-- C6: attaching tags to a missing book id does fail before any
mutation — the state comes back unchanged — but with `AttributeError`
from the undeclared `Book.id` (surfaced as a generic 500), never with
the `BookNotFound` the claim asserts. -/
theorem attach_missing_book_raises_attributeError
    (db : DB) (bid : Nat) (names : List String)
    (h : ∀ b ∈ db.books, b.uid ≠ bid) :
    add_tags_to_book db bid names = (.error .attributeError, db) := by
  simp [add_tags_to_book, get_book_or_404_raises]

theorem attach_missing_book_raises_attributeError_witness :
    add_tags_to_book dbW 99 ["Fiction"] = (.error .attributeError, dbW) :=
  attach_missing_book_raises_attributeError dbW 99 ["Fiction"] (by decide)

/-- C7: deleting a book never succeeds: the first call already raises
`AttributeError` at the book lookup (`Book.id` is not declared), the
state is unchanged, and a second call on the same id raises the same
`AttributeError` — not `BookNotFound`. -/
theorem delete_book_first_call_raises (db : DB) (bid : Nat) :
    delete_book db bid = (.error .attributeError, db) ∧
    delete_book (delete_book db bid).2 bid =
      (.error .attributeError, (delete_book db bid).2) := by
  have h : ∀ d : DB, delete_book d bid = (.error .attributeError, d) := by
    intro d
    simp [delete_book, get_book_or_404_raises]
  exact ⟨h db, h _⟩

/-- C8 counterexample: at a concrete input the tag-update path's
not-found condition is not translated into a `tag_not_found` 404 at all:
`update_tag` raises `AttributeError` inside `get_tag_by_uid` (the model
declares no `Tag.id`), and the response for that exception is the
generic 500 `server_error` body. -/
theorem update_tag_not_found_crashes_untranslated :
    (update_tag ⟨[], [], [], 0, 0⟩ 99 "X").1 = .error .attributeError ∧
    handle_error .attributeError =
      ⟨500, some "Oops! Something went wrong", some "server_error", none⟩ ∧
    (handle_error .attributeError).error_code ≠ some "tag_not_found" ∧
    (handle_error .attributeError).status ≠ 404 := by decide

/-- C8 (amended): the handlers registered in `register_all_errors`
translate the domain exceptions into the stable codes `book_not_found`
(404), `tag_not_found` (404) and `tag_exists` (403), and the reachable
`AlreadyExists` signal — `add_tag` on a duplicate name — is so
translated; but the tag-update and tag-delete paths never reach a
NotFound signal: `get_tag_by_uid` raises `AttributeError` on every call
(the model declares no `Tag.id`), surfaced as the structured generic 500
`server_error` response, never as raw exception text. -/
theorem domain_errors_translated_amended :
    handle_error .bookNotFound =
      ⟨404, some "Book Not Found", some "book_not_found", none⟩ ∧
    handle_error .tagNotFound =
      ⟨404, some "Tag Not Found", some "tag_not_found", none⟩ ∧
    handle_error .tagAlreadyExists =
      ⟨403, some "Tag Already exists", some "tag_exists", none⟩ ∧
    (add_tag dbW "Fiction").1 = .error .tagAlreadyExists ∧
    (∀ (db : DB) (tid : Nat) (nm : String),
      (update_tag db tid nm).1 = .error .attributeError) ∧
    (∀ (db : DB) (tid : Nat),
      (delete_tag db tid).1 = .error .attributeError) ∧
    handle_error .attributeError =
      ⟨500, some "Oops! Something went wrong", some "server_error", none⟩ := by
  refine ⟨rfl, rfl, rfl, by decide, ?_, ?_, rfl⟩
  · intro db tid nm
    simp [update_tag, get_tag_by_uid_raises]
  · intro db tid
    simp [delete_tag, get_tag_by_uid_raises]

/-- C9: `update_book` never overwrites any field: it raises
`AttributeError` at the book lookup (`Book.id` is not declared) for
every state, id and payload, returning the state unchanged.  The claim's
creation half is real: `create_book` assigns both timestamps (the
insert-time defaults) from the clock. -/
theorem update_book_never_updates
    (db : DB) (bid : Nat) (m : BookCreateModel) :
    update_book db bid m = (.error .attributeError, db) ∧
    (∀ (db2 : DB) (m2 : BookCreateModel) (r : BookRow),
      (create_book db2 m2).1 = .ok r →
      r.created_at = db2.clock ∧ r.update_at = db2.clock) := by
  constructor
  · simp [update_book, get_book_or_404_raises]
  · intro db2 m2 r h
    unfold create_book at h
    split_ifs at h with hc
    simp only [Except.ok.injEq] at h
    subst h
    exact ⟨rfl, rfl⟩

theorem update_book_never_updates_witness :
    update_book dbW 1 ⟨"T2", "A2", "P2", "2025-01-01", 5, "es"⟩ =
      (.error .attributeError, dbW) ∧
    (⟨0, "T", "A", "P", .raw "x", 1, "en", 7, 7⟩ : BookRow).created_at = 7 ∧
    (⟨0, "T", "A", "P", .raw "x", 1, "en", 7, 7⟩ : BookRow).update_at = 7 := by
  have h := update_book_never_updates dbW 1
    ⟨"T2", "A2", "P2", "2025-01-01", 5, "es"⟩
  refine ⟨h.1, ?_, ?_⟩
  · exact (h.2 ⟨[], [], [], 0, 7⟩ ⟨"T", "A", "P", "x", 1, "en"⟩
      ⟨0, "T", "A", "P", .raw "x", 1, "en", 7, 7⟩ (by decide)).1
  · exact (h.2 ⟨[], [], [], 0, 7⟩ ⟨"T", "A", "P", "x", 1, "en"⟩
      ⟨0, "T", "A", "P", .raw "x", 1, "en", 7, 7⟩ (by decide)).2

/-- C10: a missing book never surfaces as a raised `BookNotFound`: the
lookup raises `AttributeError` for every id (existing book or not,
either `with_tags` flag), and `update_book` and `delete_book` propagate
that same error with the state unchanged — so they indeed never return
an absent value, but through an unconditional crash, not the claimed
`BookNotFound` mechanism. -/
theorem missing_book_lookup_raises_attributeError
    (db : DB) (bid : Nat) (m : BookCreateModel) (wt : Bool) :
    get_book_or_404 db bid wt = .error .attributeError ∧
    update_book db bid m = (.error .attributeError, db) ∧
    delete_book db bid = (.error .attributeError, db) := by
  refine ⟨get_book_or_404_raises db bid wt, ?_, ?_⟩
  · simp [update_book, get_book_or_404_raises]
  · simp [delete_book, get_book_or_404_raises]

end BookDemo
